import Mathlib

/-!
A shallow embedding of `verifyAuthenticationResponse` from
`packages/server/src/authentication/verifyAuthenticationResponse.ts`, together
with theorems about its behaviour.

The function under study orchestrates external helper modules
(`decodeClientDataJSON`, `toHash`, `verifySignature`, `parseAuthenticatorData`,
`parseBackupFlags`, `matchExpectedRPID`, `isoBase64URL`) whose sources are not
part of the material; those are modelled from the specification, either as
concrete definitions (when the specification pins them down) or as parameters
collected in a `Helpers` bundle.  The orchestrator itself is transcribed
check-for-check from the source, and instrumented with a `Trace` recording how
many times the caller-supplied challenge predicate and the signature verifier
were invoked.
-/

namespace SimpleWebAuthn

/-- A JavaScript runtime value, as far as the checks in the source distinguish
them: the source receives untrusted JSON and guards fields with `typeof`
checks and truthiness tests. -/
inductive JSVal where
  | str (s : String)
  | num (n : Int)
  | boolV (b : Bool)
  | nullV
  | undef
  | objV
  deriving DecidableEq, Repr

/-- JavaScript truthiness of a `JSVal` (`if (x)`). -/
def JSVal.truthy : JSVal → Bool
  | .str s => s ≠ ""
  | .num n => n ≠ 0
  | .boolV b => b
  | .nullV => false
  | .undef => false
  | .objV => true

/-- `typeof x === 'string'`. -/
def JSVal.isStr : JSVal → Bool
  | .str _ => true
  | _ => false

/-- JavaScript truthiness of a possibly-absent string field (`if (!id)`):
falsy when the field is absent or the empty string. -/
def strFalsy : Option String → Bool
  | none => true
  | some s => s = ""

/-- The `tokenBinding` member of decoded client data, as the source's checks
see it: either a JS object carrying a (possibly missing / non-string) `status`
member, or some non-object value with a given truthiness. -/
inductive TokenBindingJS where
  | object (status : Option String)
  | nonObject (truthy : Bool)
  deriving DecidableEq, Repr

/-- Decoded client data: `{type, challenge, origin, tokenBinding?}`
(specification section 4.2; the decoder guarantees the three required fields
are strings). -/
structure ClientData where
  type : String
  challenge : String
  origin : String
  tokenBinding : Option TokenBindingJS := none
  deriving DecidableEq, Repr

/-- The flag bits of authenticator data (byte 32 of the wire layout):
user-present, user-verified, backup-eligible, backup-state,
attested-credential-data, extension-data. -/
structure AuthenticatorFlags where
  up : Bool
  uv : Bool
  be : Bool
  bs : Bool
  atf : Bool
  ed : Bool
  deriving DecidableEq, Repr

/-- The fields of parsed authenticator data that the authentication verifier
reads: RP-ID hash, flags, counter, optional extension outputs. -/
structure ParsedAuthenticatorData where
  rpIdHash : List Nat
  flags : AuthenticatorFlags
  counter : Nat
  extensionsData : Option (List Nat) := none
  deriving DecidableEq, Repr

/-- Caller-owned credential state (specification section 3):
`{id, publicKey: raw bytes, counter}`. -/
structure WebAuthnCredential where
  id : String
  publicKey : List Nat
  counter : Nat
  deriving DecidableEq, Repr

/-- `'required' | 'preferred' | 'discouraged'`. -/
inductive UserVerificationRequirement where
  | required
  | preferred
  | discouraged
  deriving DecidableEq, Repr

/-- The `advancedFIDOConfig` option: an object whose `userVerification` member
may itself be absent. -/
structure AdvancedFIDOConfig where
  userVerification : Option UserVerificationRequirement := none
  deriving DecidableEq, Repr

/-- `credentialDeviceType` in the result record. -/
inductive CredentialDeviceType where
  | singleDevice
  | multiDevice
  deriving DecidableEq, Repr

/-- The `response` member of an `AuthenticationResponseJSON`.  The binary
fields are base64url strings on the wire; `clientDataJSON` and `userHandle`
are kept as raw JS values because the source guards them with `typeof`
checks. -/
structure AuthenticatorAssertionResponseJSON where
  clientDataJSON : JSVal
  authenticatorData : String
  signature : String
  userHandle : JSVal := .undef
  deriving DecidableEq, Repr

/-- The authentication response submitted by the browser:
`{id, rawId, type, response}`.  `id`, `rawId` and `type` may be absent at
runtime (untrusted input), hence `Option`. -/
structure AuthenticationResponseJSON where
  id : Option String
  rawId : Option String
  type : Option String
  response : AuthenticatorAssertionResponseJSON
  deriving DecidableEq, Repr

/-- `authenticationInfo` of a verified authentication response. -/
structure AuthenticationInfo where
  credentialID : String
  newCounter : Nat
  userVerified : Bool
  credentialDeviceType : CredentialDeviceType
  credentialBackedUp : Bool
  origin : String
  rpID : String
  authenticatorExtensionResults : Option (List Nat) := none
  deriving DecidableEq, Repr

/-- Result of authentication verification. -/
structure VerifiedAuthenticationResponse where
  verified : Bool
  authenticationInfo : AuthenticationInfo
  deriving DecidableEq, Repr

/-- One constructor per `throw` site of `verifyAuthenticationResponse` (every
throw in the source is a generic `Error` distinguished only by its message;
the constructors follow the error taxonomy the specification gives them). -/
inductive VerifyError where
  | missingCredentialId
  | credentialIdMismatch
  | unexpectedCredentialType (t : Option String)
  | missingResponseField
  | malformedClientData
  | typeMismatch (t : String)
  | challengeMismatch (c : String)
  | challengePredicateRejected
  | originMismatch (o : String)
  | invalidAuthDataEncoding
  | invalidSignatureEncoding
  | invalidUserHandle
  | tokenBindingNotObject
  | tokenBindingBadStatus
  | malformedAuthenticatorData
  | rpIdMismatch
  | userNotPresent
  | userNotVerified
  | counterRegression (observed stored : Nat)
  deriving DecidableEq, Repr

/-- How many times the two caller-visible effects ran during one call: the
caller-supplied challenge predicate and the signature verifier. -/
structure Trace where
  challengeCalls : Nat
  verifyCalls : Nat
  deriving DecidableEq, Repr

/-- Modelled from the spec: the strict base64url validator of the external
Base64URL/Binary Codec (section 4.1) — a string is valid iff it contains no
padding and no character outside the base64url alphabet. -/
def isBase64URLChar (c : Char) : Bool :=
  c.isAlphanum || c = '-' || c = '_'

/-- Modelled from the spec: `isoBase64URL.isBase64URL` (section 4.1). -/
def isBase64URL (s : String) : Bool :=
  s.toList.all isBase64URLChar

/-- Modelled from the spec: `parseBackupFlags` — device type and backup state
derived from the `be`/`bs` flags (`be` selects single- vs multi-device;
`bs` is meaningful only when `be` is set), sections 4.9 and 3. -/
def parseBackupFlags (flags : AuthenticatorFlags) : CredentialDeviceType × Bool :=
  (if flags.be then .multiDevice else .singleDevice, flags.be && flags.bs)

/-- Modelled from the spec: the external helper modules imported by
`verifyAuthenticationResponse` whose sources are not part of the material —
the ClientData Decoder (4.2), the Authenticator Data Parser (4.3), SHA-256
(`toHash`), the Signature Verifier (4.5, `verifySignature signature data
publicKey`), the RP ID Matcher (4.6) and the base64url-to-bytes decoder.
Theorems quantify over this bundle. -/
structure Helpers where
  decodeClientDataJSON : String → Except Unit ClientData
  parseAuthenticatorData : List Nat → Except Unit ParsedAuthenticatorData
  toHash : List Nat → List Nat
  verifySignature : List Nat → List Nat → List Nat → Bool
  matchExpectedRPID : List Nat → List String → Option String
  toBuffer : String → List Nat

/-- Options of `verifyAuthenticationResponse`.  `expectedChallenge` is either
a literal string or a caller-supplied predicate (the promise it returns may
also reject, modelled by `Except Unit Bool`); `expectedOrigin`, `expectedRPID`
and `expectedType` are string-or-array unions as in the source. -/
structure VerifyAuthenticationResponseOpts where
  response : AuthenticationResponseJSON
  expectedChallenge : String ⊕ (String → Except Unit Bool)
  expectedOrigin : String ⊕ List String
  expectedRPID : String ⊕ List String
  credential : WebAuthnCredential
  expectedType : Option (String ⊕ List String) := none
  requireUserVerification : Bool := true
  advancedFIDOConfig : Option AdvancedFIDOConfig := none

/-- Lines 93–108: the expected-type check (array membership, truthy single
string equality, or the default `webauthn.get`). -/
def checkType (expectedType : Option (String ⊕ List String)) (t : String) :
    Option VerifyError :=
  match expectedType with
  | some (.inr l) => if t ∈ l then none else some (.typeMismatch t)
  | some (.inl s) =>
    if s ≠ "" then (if t ≠ s then some (.typeMismatch t) else none)
    else (if t ≠ "webauthn.get" then some (.typeMismatch t) else none)
  | none => if t ≠ "webauthn.get" then some (.typeMismatch t) else none

/-- Lines 110–121: the challenge check.  Returns the outcome together with the
number of invocations of the caller-supplied predicate. -/
def checkChallenge (expectedChallenge : String ⊕ (String → Except Unit Bool))
    (challenge : String) : Except VerifyError Unit × Nat :=
  match expectedChallenge with
  | .inr f =>
    match f challenge with
    | .error _ => (.error .challengePredicateRejected, 1)
    | .ok false => (.error (.challengeMismatch challenge), 1)
    | .ok true => (.ok (), 1)
  | .inl s =>
    if challenge ≠ s then (.error (.challengeMismatch challenge), 0)
    else (.ok (), 0)

/-- Lines 124–137: the origin check (array membership or string equality). -/
def checkOrigin (expectedOrigin : String ⊕ List String) (origin : String) :
    Option VerifyError :=
  match expectedOrigin with
  | .inr l => if origin ∈ l then none else some (.originMismatch origin)
  | .inl s => if origin ≠ s then some (.originMismatch origin) else none

/-- Lines 156–166: token-binding validation (truthy non-object rejected;
object `status` must be one of the three enumerated values). -/
def checkTokenBinding : Option TokenBindingJS → Option VerifyError
  | none => none
  | some (.nonObject t) => if t then some .tokenBindingNotObject else none
  | some (.object status) =>
    match status with
    | some s =>
      if s = "present" || s = "supported" || s = "notSupported" then none
      else some .tokenBindingBadStatus
    | none => some .tokenBindingBadStatus

/-- Lines 184–218: the flag policy.  Advanced-conformance mode (an
`advancedFIDOConfig` was supplied) requires `uv` only when the configured
user-verification requirement is `required`; standard mode requires `up` and,
when `requireUserVerification` is set, `uv`. -/
def flagPolicyCheck (advancedFIDOConfig : Option AdvancedFIDOConfig)
    (requireUserVerification : Bool) (flags : AuthenticatorFlags) :
    Option VerifyError :=
  match advancedFIDOConfig with
  | some cfg =>
    match cfg.userVerification with
    | some .required => if !flags.uv then some .userNotVerified else none
    | some .preferred => none
    | some .discouraged => none
    | none => none
  | none =>
    if !flags.up then some .userNotPresent
    else if requireUserVerification && !flags.uv then some .userNotVerified
    else none

/-- Lines 175–180: normalize the string-or-array `expectedRPID` option. -/
def normalizeRPIDs : String ⊕ List String → List String
  | .inl s => [s]
  | .inr l => l

/-- Lines 220–260 of the source, from the client-data hash on: compute the
signature base `authenticatorData || SHA-256(clientDataJSON)`, enforce the
counter policy, and assemble the result whose `verified` field is the
signature verifier's verdict. -/
def stageFinal (H : Helpers) (o : VerifyAuthenticationResponseOpts)
    (cdjStr : String) (clientDataJSON : ClientData)
    (parsed : ParsedAuthenticatorData) (matchedRPID : String) (n : Nat) :
    Except VerifyError VerifiedAuthenticationResponse × Trace :=
  let authDataBuffer := H.toBuffer o.response.response.authenticatorData
  let clientDataHash := H.toHash (H.toBuffer cdjStr)
  let signatureBase := authDataBuffer ++ clientDataHash
  let signature := H.toBuffer o.response.response.signature
  if (parsed.counter > 0 ∨ o.credential.counter > 0) ∧
      parsed.counter ≤ o.credential.counter then
    (.error (.counterRegression parsed.counter o.credential.counter), ⟨n, 0⟩)
  else
    let (credentialDeviceType, credentialBackedUp) := parseBackupFlags parsed.flags
    (.ok {
      verified := H.verifySignature signature signatureBase o.credential.publicKey
      authenticationInfo := {
        credentialID := o.credential.id
        newCounter := parsed.counter
        userVerified := parsed.flags.uv
        credentialDeviceType := credentialDeviceType
        credentialBackedUp := credentialBackedUp
        origin := clientDataJSON.origin
        rpID := matchedRPID
        authenticatorExtensionResults := parsed.extensionsData } }, ⟨n, 1⟩)

/-- Lines 139–218: encoding checks on the response fields, token binding,
authenticator-data parsing, RP-ID matching and the flag policy. -/
def stageAfterChallenge (H : Helpers) (o : VerifyAuthenticationResponseOpts)
    (cdjStr : String) (clientDataJSON : ClientData) (n : Nat) :
    Except VerifyError VerifiedAuthenticationResponse × Trace :=
  match checkOrigin o.expectedOrigin clientDataJSON.origin with
  | some e => (.error e, ⟨n, 0⟩)
  | none =>
    if !isBase64URL o.response.response.authenticatorData then
      (.error .invalidAuthDataEncoding, ⟨n, 0⟩)
    else if !isBase64URL o.response.response.signature then
      (.error .invalidSignatureEncoding, ⟨n, 0⟩)
    else if o.response.response.userHandle.truthy &&
        !o.response.response.userHandle.isStr then
      (.error .invalidUserHandle, ⟨n, 0⟩)
    else
      match checkTokenBinding clientDataJSON.tokenBinding with
      | some e => (.error e, ⟨n, 0⟩)
      | none =>
        match H.parseAuthenticatorData
            (H.toBuffer o.response.response.authenticatorData) with
        | .error _ => (.error .malformedAuthenticatorData, ⟨n, 0⟩)
        | .ok parsed =>
          match H.matchExpectedRPID parsed.rpIdHash
              (normalizeRPIDs o.expectedRPID) with
          | none => (.error .rpIdMismatch, ⟨n, 0⟩)
          | some matchedRPID =>
            match flagPolicyCheck o.advancedFIDOConfig
                o.requireUserVerification parsed.flags with
            | some e => (.error e, ⟨n, 0⟩)
            | none => stageFinal H o cdjStr clientDataJSON parsed matchedRPID n

/-- Lines 88–121: decode the client data, check ceremony type and
challenge. -/
def stageClientData (H : Helpers) (o : VerifyAuthenticationResponseOpts)
    (cdjStr : String) :
    Except VerifyError VerifiedAuthenticationResponse × Trace :=
  match H.decodeClientDataJSON cdjStr with
  | .error _ => (.error .malformedClientData, ⟨0, 0⟩)
  | .ok clientDataJSON =>
    match checkType o.expectedType clientDataJSON.type with
    | some e => (.error e, ⟨0, 0⟩)
    | none =>
      match checkChallenge o.expectedChallenge clientDataJSON.challenge with
      | (.error e, n) => (.error e, ⟨n, 0⟩)
      | (.ok _, n) => stageAfterChallenge H o cdjStr clientDataJSON n

/-- The authentication verifier, `verifyAuthenticationResponse`
(lines 37–261 of the source), instrumented with a `Trace`.  The structural
checks of lines 63–86 come first; the `if (!response)` check of line 80 is
unreachable (the response record was already destructured) and has no
embedding. -/
def verifyAuthenticationResponse (H : Helpers)
    (options : VerifyAuthenticationResponseOpts) :
    Except VerifyError VerifiedAuthenticationResponse × Trace :=
  if strFalsy options.response.id then (.error .missingCredentialId, ⟨0, 0⟩)
  else if options.response.id ≠ options.response.rawId then
    (.error .credentialIdMismatch, ⟨0, 0⟩)
  else if options.response.type ≠ some "public-key" then
    (.error (.unexpectedCredentialType options.response.type), ⟨0, 0⟩)
  else
    match options.response.response.clientDataJSON with
    | .str cdjStr => stageClientData H options cdjStr
    | _ => (.error .missingResponseField, ⟨0, 0⟩)

/-- The structural checks of lines 63–86 all pass: a truthy `id` equal to
`rawId`, type `public-key`, and a string `clientDataJSON`. -/
def StructuralOk (o : VerifyAuthenticationResponseOpts) (cdjStr : String) : Prop :=
  strFalsy o.response.id = false ∧
  o.response.id = o.response.rawId ∧
  o.response.type = some "public-key" ∧
  o.response.response.clientDataJSON = .str cdjStr

/-- Every check before the flag policy (lines 63–182) passes, with the named
intermediate values: decoded client data `cd`, challenge-predicate invocation
count `n`, parsed authenticator data `parsed`, matched RP ID `rp`. -/
def ReachesFlagCheck (H : Helpers) (o : VerifyAuthenticationResponseOpts)
    (cdjStr : String) (cd : ClientData) (n : Nat)
    (parsed : ParsedAuthenticatorData) (rp : String) : Prop :=
  StructuralOk o cdjStr ∧
  H.decodeClientDataJSON cdjStr = .ok cd ∧
  checkType o.expectedType cd.type = none ∧
  checkChallenge o.expectedChallenge cd.challenge = (.ok (), n) ∧
  checkOrigin o.expectedOrigin cd.origin = none ∧
  isBase64URL o.response.response.authenticatorData = true ∧
  isBase64URL o.response.response.signature = true ∧
  (o.response.response.userHandle.truthy &&
    !o.response.response.userHandle.isStr) = false ∧
  checkTokenBinding cd.tokenBinding = none ∧
  H.parseAuthenticatorData (H.toBuffer o.response.response.authenticatorData) =
    .ok parsed ∧
  H.matchExpectedRPID parsed.rpIdHash (normalizeRPIDs o.expectedRPID) = some rp

/-- The result record assembled on the success path (lines 242–258). -/
def okRecord (H : Helpers) (o : VerifyAuthenticationResponseOpts)
    (cdjStr : String) (cd : ClientData) (parsed : ParsedAuthenticatorData)
    (rp : String) : VerifiedAuthenticationResponse :=
  { verified := H.verifySignature (H.toBuffer o.response.response.signature)
      (H.toBuffer o.response.response.authenticatorData ++
        H.toHash (H.toBuffer cdjStr))
      o.credential.publicKey
    authenticationInfo := {
      credentialID := o.credential.id
      newCounter := parsed.counter
      userVerified := parsed.flags.uv
      credentialDeviceType := (parseBackupFlags parsed.flags).1
      credentialBackedUp := (parseBackupFlags parsed.flags).2
      origin := cd.origin
      rpID := rp
      authenticatorExtensionResults := parsed.extensionsData } }

/-- Client data of the running concrete example (Scenario A of the spec). -/
def cdA : ClientData :=
  { type := "webauthn.get", challenge := "abc123",
    origin := "https://example.com", tokenBinding := none }

/-- Flags of the running concrete example: `up` and `uv` set. -/
def flagsA : AuthenticatorFlags :=
  { up := true, uv := true, be := false, bs := false, atf := false, ed := false }

/-- Parsed authenticator data of the running concrete example. -/
def parsedA : ParsedAuthenticatorData :=
  { rpIdHash := [9], flags := flagsA, counter := 5, extensionsData := none }

/-- Stored credential of the running concrete example. -/
def credA : WebAuthnCredential :=
  { id := "stored-credential-id", publicKey := [4], counter := 4 }

/-- Concrete helper bundle for witnesses. -/
def H0 : Helpers :=
  { decodeClientDataJSON := fun s => if s = "CDJ" then .ok cdA else .error ()
    parseAuthenticatorData := fun b => if b = [2] then .ok parsedA else .error ()
    toHash := fun b => 7 :: b
    verifySignature := fun sig data pk =>
      if sig = [1] ∧ data = [2, 7, 3] ∧ pk = [4] then true else false
    matchExpectedRPID := fun h rs =>
      if h = [9] ∧ "example.com" ∈ rs then some "example.com" else none
    toBuffer := fun s =>
      if s = "AD" then [2] else if s = "SIG" then [1]
      else if s = "CDJ" then [3] else [0] }

/-- Assertion response of the running concrete example. -/
def assertionA : AuthenticatorAssertionResponseJSON :=
  { clientDataJSON := .str "CDJ", authenticatorData := "AD", signature := "SIG",
    userHandle := .undef }

/-- Authentication response of the running concrete example; its `id` differs
from the stored credential's `id`. -/
def respA : AuthenticationResponseJSON :=
  { id := some "response-id", rawId := some "response-id",
    type := some "public-key", response := assertionA }

/-- Options of the running concrete example. -/
def optsA : VerifyAuthenticationResponseOpts :=
  { response := respA
    expectedChallenge := .inl "abc123"
    expectedOrigin := .inl "https://example.com"
    expectedRPID := .inl "example.com"
    credential := credA }

/-- The record `verifyAuthenticationResponse H0 optsA` returns. -/
def resultA : VerifiedAuthenticationResponse :=
  { verified := true
    authenticationInfo := {
      credentialID := "stored-credential-id"
      newCounter := 5
      userVerified := true
      credentialDeviceType := .singleDevice
      credentialBackedUp := false
      origin := "https://example.com"
      rpID := "example.com"
      authenticatorExtensionResults := none } }

/-- Helper bundle whose signature verifier rejects everything (a forged
signature). -/
def H0bad : Helpers :=
  { H0 with verifySignature := fun _ _ _ => false }

/-- `resultA` with a `false` verdict. -/
def resultAfalse : VerifiedAuthenticationResponse :=
  { resultA with verified := false }

/-- `optsA` with an expected origin that does not match the client data. -/
def optsC : VerifyAuthenticationResponseOpts :=
  { optsA with expectedOrigin := .inl "https://other.example" }

/-- `optsA` with a challenge predicate that always returns `false`. -/
def optsD : VerifyAuthenticationResponseOpts :=
  { optsA with expectedChallenge := .inr fun _ => .ok false }

/-- Flags with neither `up` nor `uv` set. -/
def flagsNone : AuthenticatorFlags :=
  { up := false, uv := false, be := false, bs := false, atf := false, ed := false }

/-- `parsedA` with all flags cleared. -/
def parsedNoUV : ParsedAuthenticatorData :=
  { parsedA with flags := flagsNone }

/-- Helper bundle whose parser reports cleared flags. -/
def H2 : Helpers :=
  { H0 with parseAuthenticatorData := fun b =>
      if b = [2] then .ok parsedNoUV else .error () }

/-- `optsA` in advanced-conformance mode with requirement `discouraged`. -/
def optsF : VerifyAuthenticationResponseOpts :=
  { optsA with advancedFIDOConfig := some { userVerification := some .discouraged } }

/-- `parsedA` with a regressed counter (3, not above the stored 4). -/
def parsedB : ParsedAuthenticatorData :=
  { parsedA with counter := 3 }

/-- Helper bundle whose parser reports the regressed counter. -/
def H3 : Helpers :=
  { H0 with parseAuthenticatorData := fun b =>
      if b = [2] then .ok parsedB else .error () }

/-- `optsA` with a present-but-empty credential id. -/
def optsEmptyId : VerifyAuthenticationResponseOpts :=
  { optsA with response := { respA with id := some "", rawId := some "" } }

/-- `optsA` with a present, non-string, falsy `userHandle`. -/
def optsUH0 : VerifyAuthenticationResponseOpts :=
  { optsA with response :=
      { respA with response := { assertionA with userHandle := .num 0 } } }

/-- The claim-side membership condition of the origin check: the observed
origin equals the single expected origin, or belongs to the expected list. -/
def originExpected (eo : String ⊕ List String) (og : String) : Bool :=
  match eo with
  | .inl s => og = s
  | .inr l => og ∈ l

/-- The record `verifyAuthenticationResponse H2 optsF` returns: as `resultA`
but with `userVerified := false` (flags all cleared, advanced mode
`discouraged`). -/
def resultF : VerifiedAuthenticationResponse :=
  { resultA with authenticationInfo :=
      { resultA.authenticationInfo with userVerified := false } }

/-- `optsA` with a `rawId` that differs from `id`. -/
def optsRawIdMismatch : VerifyAuthenticationResponseOpts :=
  { optsA with response := { respA with rawId := some "other-id" } }

theorem stageFinal_eq (H : Helpers) (o : VerifyAuthenticationResponseOpts)
    (cdjStr : String) (cd : ClientData) (parsed : ParsedAuthenticatorData)
    (rp : String) (n : Nat) :
    stageFinal H o cdjStr cd parsed rp n =
      if (parsed.counter > 0 ∨ o.credential.counter > 0) ∧
          parsed.counter ≤ o.credential.counter then
        (.error (.counterRegression parsed.counter o.credential.counter), ⟨n, 0⟩)
      else (.ok (okRecord H o cdjStr cd parsed rp), ⟨n, 1⟩) := by
  rfl

/-- Master computation lemma: once every check before the flag policy passes,
the call is the flag check followed by the final stage. -/
theorem verify_eq_of_reaches (H : Helpers) (o : VerifyAuthenticationResponseOpts)
    {cdjStr : String} {cd : ClientData} {n : Nat}
    {parsed : ParsedAuthenticatorData} {rp : String}
    (h : ReachesFlagCheck H o cdjStr cd n parsed rp) :
    verifyAuthenticationResponse H o =
      match flagPolicyCheck o.advancedFIDOConfig o.requireUserVerification
          parsed.flags with
      | some e => (.error e, ⟨n, 0⟩)
      | none => stageFinal H o cdjStr cd parsed rp n := by
  obtain ⟨⟨h1, h2, h3, h4⟩, h5, h6, h7, h8, h9, h10, h11, h12, h13, h14⟩ := h
  unfold verifyAuthenticationResponse stageClientData stageAfterChallenge
  simp [h1, ← h2, h3, h4, h5, h6, h7, h8, h9, h10, h11, h12, h13, h14]

/-! Concrete fixtures, used by witness theorems.  The helper bundle `H0`
interprets the handful of strings appearing in `optsA` as fixed byte strings;
its signature verifier accepts exactly the triple arising on that input. -/

theorem verify_optsA :
    verifyAuthenticationResponse H0 optsA = (.ok resultA, ⟨0, 1⟩) := by
  rfl

/-- Proof that the concrete example reaches the flag check. -/
theorem reachesA : ReachesFlagCheck H0 optsA "CDJ" cdA 0 parsedA "example.com" :=
  ⟨⟨rfl, rfl, rfl, rfl⟩, rfl, rfl, rfl, rfl, rfl, rfl, rfl, rfl, rfl, rfl⟩


/-- `checkType` only ever reports a type mismatch. -/
theorem checkType_range (et : Option (String ⊕ List String)) (t : String)
    (e : VerifyError) (h : checkType et t = some e) : e = .typeMismatch t := by
  unfold checkType at h
  repeat' split at h
  all_goals simp_all

/-- `checkChallenge` only ever reports a challenge mismatch or a rejected
predicate promise. -/
theorem checkChallenge_range (ec : String ⊕ (String → Except Unit Bool))
    (c : String) (e : VerifyError) (n : Nat)
    (h : checkChallenge ec c = (.error e, n)) :
    e = .challengeMismatch c ∨ e = .challengePredicateRejected := by
  unfold checkChallenge at h
  repeat' split at h
  all_goals simp_all

/-- The challenge predicate is invoked at most once by `checkChallenge`. -/
theorem checkChallenge_count (ec : String ⊕ (String → Except Unit Bool))
    (c : String) : (checkChallenge ec c).2 ≤ 1 := by
  unfold checkChallenge
  repeat' split
  all_goals simp

/-- `checkOrigin` only ever reports an origin mismatch. -/
theorem checkOrigin_range (eo : String ⊕ List String) (og : String)
    (e : VerifyError) (h : checkOrigin eo og = some e) :
    e = .originMismatch og := by
  unfold checkOrigin at h
  repeat' split at h
  all_goals simp_all

/-- `checkTokenBinding` only ever reports the two token-binding defects. -/
theorem checkTokenBinding_range (tb : Option TokenBindingJS) (e : VerifyError)
    (h : checkTokenBinding tb = some e) :
    e = .tokenBindingNotObject ∨ e = .tokenBindingBadStatus := by
  unfold checkTokenBinding at h
  repeat' split at h
  all_goals simp_all

/-- `flagPolicyCheck` only ever reports the two flag defects. -/
theorem flagPolicyCheck_range (cfg : Option AdvancedFIDOConfig)
    (ruv : Bool) (flags : AuthenticatorFlags) (e : VerifyError)
    (h : flagPolicyCheck cfg ruv flags = some e) :
    e = .userNotPresent ∨ e = .userNotVerified := by
  unfold flagPolicyCheck at h
  repeat' split at h
  all_goals simp_all

/-- The final stage reports the challenge-invocation count it was handed. -/
theorem stageFinal_challengeCalls (H : Helpers)
    (o : VerifyAuthenticationResponseOpts) (s : String) (cd : ClientData)
    (parsed : ParsedAuthenticatorData) (rp : String) (n : Nat) :
    (stageFinal H o s cd parsed rp n).2.challengeCalls = n := by
  rw [stageFinal_eq]
  split <;> rfl

/-- The post-challenge stage reports the challenge-invocation count it was
handed. -/
theorem stageAfterChallenge_challengeCalls (H : Helpers)
    (o : VerifyAuthenticationResponseOpts) (s : String) (cd : ClientData)
    (n : Nat) :
    (stageAfterChallenge H o s cd n).2.challengeCalls = n := by
  unfold stageAfterChallenge
  repeat' split
  all_goals simp [stageFinal_challengeCalls]

/-- The challenge predicate is invoked at most once per call. -/
theorem verify_challengeCalls_le_one (H : Helpers)
    (o : VerifyAuthenticationResponseOpts) :
    (verifyAuthenticationResponse H o).2.challengeCalls ≤ 1 := by
  unfold verifyAuthenticationResponse stageClientData
  repeat' split
  all_goals try simp
  all_goals (
    rename_i h1 h2 h3 x3 cdjStr hcd x2 cd hdec x1 hty x0 ea n heq
    have hle := checkChallenge_count o.expectedChallenge cd.challenge
    rw [heq] at hle
    simpa [stageAfterChallenge_challengeCalls] using hle)

/-- Inversion: a call that returns a record (rather than throwing) passed
every check, and the record and trace are exactly those of the success
path. -/
theorem verify_ok_elim (H : Helpers) (o : VerifyAuthenticationResponseOpts)
    (r : VerifiedAuthenticationResponse) (tr : Trace)
    (h : verifyAuthenticationResponse H o = (.ok r, tr)) :
    ∃ cdjStr cd n parsed rp,
      ReachesFlagCheck H o cdjStr cd n parsed rp ∧
      flagPolicyCheck o.advancedFIDOConfig o.requireUserVerification
        parsed.flags = none ∧
      ¬((parsed.counter > 0 ∨ o.credential.counter > 0) ∧
          parsed.counter ≤ o.credential.counter) ∧
      r = okRecord H o cdjStr cd parsed rp ∧ tr = ⟨n, 1⟩ := by
  unfold verifyAuthenticationResponse stageClientData stageAfterChallenge at h
  simp only [stageFinal_eq] at h
  repeat' split at h
  all_goals try (simp at h)
  rename_i h1 h2 h3 x8 cdjStr hcd x7 cd hdec x6 hty x5 u n hch x4 horig
    hb1 hb2 huh x3 htb x2 parsed hpar x1 rp hrp x0 hfp hcnt
  obtain ⟨hr, htr⟩ := h
  exact ⟨cdjStr, cd, n, parsed, rp,
    ⟨⟨by simpa using h1, by simpa using h2, by simpa using h3, hcd⟩,
      hdec, hty, hch, horig, by simpa using hb1, by simpa using hb2,
      by simpa using huh, htb, hpar, hrp⟩, hfp, hcnt, hr.symm, htr.symm⟩


set_option maxHeartbeats 1600000 in
/-- Classification of thrown errors: every error identifies the check that
produced it, together with that check's failing condition. -/
theorem verify_error_elim (H : Helpers) (o : VerifyAuthenticationResponseOpts)
    (e : VerifyError) (tr : Trace)
    (h : verifyAuthenticationResponse H o = (.error e, tr)) :
    (e = .missingCredentialId ∧ strFalsy o.response.id = true) ∨
    (e = .credentialIdMismatch ∧ o.response.id ≠ o.response.rawId) ∨
    (e = .unexpectedCredentialType o.response.type ∧
      o.response.type ≠ some "public-key") ∨
    (e = .missingResponseField ∧
      o.response.response.clientDataJSON.isStr = false) ∨
    (e = .malformedClientData ∧ ∃ cdjStr u,
      o.response.response.clientDataJSON = .str cdjStr ∧
      H.decodeClientDataJSON cdjStr = .error u) ∨
    (∃ cdjStr cd, o.response.response.clientDataJSON = .str cdjStr ∧
      H.decodeClientDataJSON cdjStr = .ok cd ∧ e = .typeMismatch cd.type ∧
      checkType o.expectedType cd.type = some e) ∨
    (∃ cdjStr cd n, o.response.response.clientDataJSON = .str cdjStr ∧
      H.decodeClientDataJSON cdjStr = .ok cd ∧
      checkChallenge o.expectedChallenge cd.challenge = (.error e, n) ∧
      (e = .challengeMismatch cd.challenge ∨ e = .challengePredicateRejected)) ∨
    (∃ cdjStr cd, o.response.response.clientDataJSON = .str cdjStr ∧
      H.decodeClientDataJSON cdjStr = .ok cd ∧ e = .originMismatch cd.origin ∧
      checkOrigin o.expectedOrigin cd.origin = some e) ∨
    (e = .invalidAuthDataEncoding ∧
      isBase64URL o.response.response.authenticatorData = false) ∨
    (e = .invalidSignatureEncoding ∧
      isBase64URL o.response.response.signature = false) ∨
    (e = .invalidUserHandle ∧ (o.response.response.userHandle.truthy &&
      !o.response.response.userHandle.isStr) = true) ∨
    ((e = .tokenBindingNotObject ∨ e = .tokenBindingBadStatus) ∧
      ∃ cdjStr cd, o.response.response.clientDataJSON = .str cdjStr ∧
        H.decodeClientDataJSON cdjStr = .ok cd ∧
        checkTokenBinding cd.tokenBinding = some e) ∨
    (e = .malformedAuthenticatorData ∧ ∃ u,
      H.parseAuthenticatorData (H.toBuffer o.response.response.authenticatorData) =
        .error u) ∨
    (e = .rpIdMismatch ∧ ∃ parsed,
      H.parseAuthenticatorData (H.toBuffer o.response.response.authenticatorData) =
        .ok parsed ∧
      H.matchExpectedRPID parsed.rpIdHash (normalizeRPIDs o.expectedRPID) = none) ∨
    ((e = .userNotPresent ∨ e = .userNotVerified) ∧ ∃ parsed,
      H.parseAuthenticatorData (H.toBuffer o.response.response.authenticatorData) =
        .ok parsed ∧
      flagPolicyCheck o.advancedFIDOConfig o.requireUserVerification
        parsed.flags = some e) ∨
    (∃ parsed,
      H.parseAuthenticatorData (H.toBuffer o.response.response.authenticatorData) =
        .ok parsed ∧
      e = .counterRegression parsed.counter o.credential.counter ∧
      (parsed.counter > 0 ∨ o.credential.counter > 0) ∧
      parsed.counter ≤ o.credential.counter) := by
  unfold verifyAuthenticationResponse stageClientData stageAfterChallenge at h
  simp only [stageFinal_eq] at h
  repeat' split at h
  any_goals solve | (exfalso; simp at h)
  all_goals simp only [Prod.mk.injEq, Except.error.injEq] at h
  all_goals obtain ⟨he, htr⟩ := h
  all_goals subst he
  all_goals try (solve | simp_all)
  all_goals (solve
    | (have hr := checkType_range _ _ _ (by assumption); simp_all)
    | (have hr := checkOrigin_range _ _ _ (by assumption); simp_all)
    | (rcases checkChallenge_range _ _ _ _ (by assumption) with hr | hr <;> simp_all)
    | (rcases checkTokenBinding_range _ _ (by assumption) with hr | hr <;> simp_all)
    | (rcases flagPolicyCheck_range _ _ _ _ (by assumption) with hr | hr <;> simp_all)
    | (cases hcj : o.response.response.clientDataJSON <;> simp_all [JSVal.isStr]))


/-- C1: for every authentication verification call that reaches signature
verification (i.e. returns a result record), the `verified` field equals the
signature verifier's verdict on the response's signature bytes over
`authenticatorData || SHA-256(clientDataJSON)` using the caller-supplied
credential's stored public key. -/
theorem verified_eq_signature_verdict (H : Helpers)
    (o : VerifyAuthenticationResponseOpts) (r : VerifiedAuthenticationResponse)
    (tr : Trace) (h : verifyAuthenticationResponse H o = (.ok r, tr)) :
    ∃ cdjStr, o.response.response.clientDataJSON = .str cdjStr ∧
      r.verified = H.verifySignature (H.toBuffer o.response.response.signature)
        (H.toBuffer o.response.response.authenticatorData ++
          H.toHash (H.toBuffer cdjStr))
        o.credential.publicKey := by
  obtain ⟨cdjStr, cd, n, parsed, rp, ⟨⟨_, _, _, hcd⟩, _⟩, _, _, hr, _⟩ :=
    verify_ok_elim H o r tr h
  exact ⟨cdjStr, hcd, by rw [hr]; rfl⟩

/-- Witness for C1 at the concrete example. -/
theorem verified_eq_signature_verdict_witness :
    resultA.verified = H0.verifySignature (H0.toBuffer "SIG")
      (H0.toBuffer "AD" ++ H0.toHash (H0.toBuffer "CDJ")) credA.publicKey := by
  obtain ⟨cdjStr, hcd, hv⟩ :=
    verified_eq_signature_verdict H0 optsA resultA ⟨0, 1⟩ verify_optsA
  have hs : "CDJ" = cdjStr := JSVal.str.inj hcd
  rw [← hs] at hv
  exact hv

/-- Proof that the concrete example with the regressed-counter parser reaches
the flag check. -/
theorem reachesA3 : ReachesFlagCheck H3 optsA "CDJ" cdA 0 parsedB "example.com" :=
  ⟨⟨rfl, rfl, rfl, rfl⟩, rfl, rfl, rfl, rfl, rfl, rfl, rfl, rfl, rfl, rfl⟩

/-- C2: once every earlier check passes, a counter-regression error is thrown
iff `(observed > 0 ∨ stored > 0) ∧ observed ≤ stored` (both exactly zero is
tolerated), and on success `newCounter` equals the observed counter. -/
theorem counter_policy (H : Helpers) (o : VerifyAuthenticationResponseOpts)
    {cdjStr : String} {cd : ClientData} {n : Nat}
    {parsed : ParsedAuthenticatorData} {rp : String}
    (h : ReachesFlagCheck H o cdjStr cd n parsed rp)
    (hflag : flagPolicyCheck o.advancedFIDOConfig o.requireUserVerification
      parsed.flags = none) :
    ((verifyAuthenticationResponse H o).1 =
        .error (.counterRegression parsed.counter o.credential.counter) ↔
      ((parsed.counter > 0 ∨ o.credential.counter > 0) ∧
        parsed.counter ≤ o.credential.counter)) ∧
    (∀ r, (verifyAuthenticationResponse H o).1 = .ok r →
      r.authenticationInfo.newCounter = parsed.counter) := by
  have hm := verify_eq_of_reaches H o h
  simp only [hflag] at hm
  rw [stageFinal_eq] at hm
  by_cases hc : (parsed.counter > 0 ∨ o.credential.counter > 0) ∧
      parsed.counter ≤ o.credential.counter
  · rw [if_pos hc] at hm
    rw [hm]
    exact ⟨by simp [hc], by simp⟩
  · rw [if_neg hc] at hm
    rw [hm]
    refine ⟨by simp [hc], ?_⟩
    intro r hr
    simp only [Except.ok.injEq] at hr
    rw [← hr]
    rfl

/-- Witness for C2: with a regressed counter (observed 3, stored 4) the call
throws the counter-regression error. -/
theorem counter_policy_witness :
    (verifyAuthenticationResponse H3 optsA).1 = .error (.counterRegression 3 4) :=
  (counter_policy H3 optsA reachesA3 rfl).1.mpr (by decide)

/-- Proof that the concrete example with the rejecting signature verifier
reaches the flag check. -/
theorem reachesAbad :
    ReachesFlagCheck H0bad optsA "CDJ" cdA 0 parsedA "example.com" :=
  ⟨⟨rfl, rfl, rfl, rfl⟩, rfl, rfl, rfl, rfl, rfl, rfl, rfl, rfl, rfl, rfl⟩

/-- C3: when every structural and policy check passes, a cryptographically
invalid signature does not raise an exception — the call returns a complete
record with `verified = false` and a fully populated `authenticationInfo`. -/
theorem invalid_signature_no_exception (H : Helpers)
    (o : VerifyAuthenticationResponseOpts)
    {cdjStr : String} {cd : ClientData} {n : Nat}
    {parsed : ParsedAuthenticatorData} {rp : String}
    (h : ReachesFlagCheck H o cdjStr cd n parsed rp)
    (hflag : flagPolicyCheck o.advancedFIDOConfig o.requireUserVerification
      parsed.flags = none)
    (hcnt : ¬((parsed.counter > 0 ∨ o.credential.counter > 0) ∧
      parsed.counter ≤ o.credential.counter))
    (hsig : H.verifySignature (H.toBuffer o.response.response.signature)
      (H.toBuffer o.response.response.authenticatorData ++
        H.toHash (H.toBuffer cdjStr))
      o.credential.publicKey = false) :
    verifyAuthenticationResponse H o =
      (.ok { verified := false
             authenticationInfo := {
               credentialID := o.credential.id
               newCounter := parsed.counter
               userVerified := parsed.flags.uv
               credentialDeviceType := (parseBackupFlags parsed.flags).1
               credentialBackedUp := (parseBackupFlags parsed.flags).2
               origin := cd.origin
               rpID := rp
               authenticatorExtensionResults := parsed.extensionsData } },
        ⟨n, 1⟩) := by
  have hm := verify_eq_of_reaches H o h
  simp only [hflag] at hm
  rw [stageFinal_eq, if_neg hcnt] at hm
  rw [hm]
  simp [okRecord, hsig]

/-- Witness for C3: the rejecting verifier yields `verified = false` with the
record otherwise fully populated, and no error. -/
theorem invalid_signature_no_exception_witness :
    verifyAuthenticationResponse H0bad optsA = (.ok resultAfalse, ⟨0, 1⟩) :=
  invalid_signature_no_exception H0bad optsA reachesAbad rfl (by decide) rfl


/-- `checkOrigin` in if-form: `none` exactly when the origin is expected. -/
theorem checkOrigin_eq (eo : String ⊕ List String) (og : String) :
    checkOrigin eo og =
      if originExpected eo og then none else some (.originMismatch og) := by
  cases eo <;> rename_i v
  · by_cases hx : og = v <;> simp [checkOrigin, originExpected, hx]
  · by_cases hx : og ∈ v <;> simp [checkOrigin, originExpected, hx]

/-- The structural prefix determines that the call continues with
`stageClientData`. -/
theorem verify_eq_stageClientData (H : Helpers)
    (o : VerifyAuthenticationResponseOpts) (cdjStr : String)
    (hs : StructuralOk o cdjStr) :
    verifyAuthenticationResponse H o = stageClientData H o cdjStr := by
  obtain ⟨h1, h2, h3, h4⟩ := hs
  unfold verifyAuthenticationResponse
  simp [h1, ← h2, h3, h4]

/-- The signature verifier never runs on a call that throws. -/
theorem verify_error_verifyCalls (H : Helpers)
    (o : VerifyAuthenticationResponseOpts) (e : VerifyError) (tr : Trace)
    (h : verifyAuthenticationResponse H o = (.error e, tr)) :
    tr.verifyCalls = 0 := by
  unfold verifyAuthenticationResponse stageClientData stageAfterChallenge at h
  simp only [stageFinal_eq] at h
  repeat' split at h
  any_goals solve | (exfalso; simp at h)
  all_goals simp only [Prod.mk.injEq, Except.error.injEq] at h
  all_goals obtain ⟨he, htr⟩ := h
  all_goals rw [← htr]


/-- C5: policy rejections happen before any signature evaluation — every
thrown error carries a trace with zero signature-verifier invocations; an
unexpected client-data origin throws the origin-mismatch error (signature
verifier never invoked), and a rejected challenge (literal inequality, or the
caller-supplied predicate returning false) throws the challenge-mismatch error
(signature verifier never invoked). -/
theorem policy_rejection_before_signature (H : Helpers)
    (o : VerifyAuthenticationResponseOpts) (cdjStr : String) (cd : ClientData)
    (hs : StructuralOk o cdjStr)
    (hdec : H.decodeClientDataJSON cdjStr = .ok cd)
    (hty : checkType o.expectedType cd.type = none) :
    (∀ e tr, verifyAuthenticationResponse H o = (.error e, tr) →
      tr.verifyCalls = 0) ∧
    (∀ n, checkChallenge o.expectedChallenge cd.challenge = (.ok (), n) →
      originExpected o.expectedOrigin cd.origin = false →
      verifyAuthenticationResponse H o =
        (.error (.originMismatch cd.origin), ⟨n, 0⟩)) ∧
    (∀ s, o.expectedChallenge = .inl s → cd.challenge ≠ s →
      verifyAuthenticationResponse H o =
        (.error (.challengeMismatch cd.challenge), ⟨0, 0⟩)) ∧
    (∀ f, o.expectedChallenge = .inr f → f cd.challenge = .ok false →
      verifyAuthenticationResponse H o =
        (.error (.challengeMismatch cd.challenge), ⟨1, 0⟩)) := by
  refine ⟨fun e tr h => verify_error_verifyCalls H o e tr h, ?_, ?_, ?_⟩
  · intro n hch horig
    rw [verify_eq_stageClientData H o cdjStr hs]
    unfold stageClientData
    simp only [hdec, hty, hch]
    unfold stageAfterChallenge
    rw [checkOrigin_eq]
    simp [horig]
  · intro s hec hne
    rw [verify_eq_stageClientData H o cdjStr hs]
    unfold stageClientData
    simp only [hdec, hty, hec]
    simp [checkChallenge, hne]
  · intro f hec hf
    rw [verify_eq_stageClientData H o cdjStr hs]
    unfold stageClientData
    simp only [hdec, hty, hec]
    simp [checkChallenge, hf]

/-- Witness for C5: a wrong origin throws the origin-mismatch error and a
false challenge predicate throws the challenge-mismatch error, in both cases
with zero signature-verifier invocations recorded. -/
theorem policy_rejection_before_signature_witness :
    verifyAuthenticationResponse H0 optsC =
      (.error (.originMismatch "https://example.com"), ⟨0, 0⟩) ∧
    verifyAuthenticationResponse H0 optsD =
      (.error (.challengeMismatch "abc123"), ⟨1, 0⟩) := by
  constructor
  · exact (policy_rejection_before_signature H0 optsC "CDJ" cdA
      ⟨rfl, rfl, rfl, rfl⟩ rfl rfl).2.1 0 rfl rfl
  · exact (policy_rejection_before_signature H0 optsD "CDJ" cdA
      ⟨rfl, rfl, rfl, rfl⟩ rfl rfl).2.2.2 (fun _ => .ok false) rfl rfl


/-- The final stage never throws a flag-policy error. -/
theorem stageFinal_no_flag_error (H : Helpers)
    (o : VerifyAuthenticationResponseOpts) (cdjStr : String) (cd : ClientData)
    (parsed : ParsedAuthenticatorData) (rp : String) (n : Nat) :
    (stageFinal H o cdjStr cd parsed rp n).1 ≠ .error .userNotPresent ∧
    (stageFinal H o cdjStr cd parsed rp n).1 ≠ .error .userNotVerified := by
  rw [stageFinal_eq]
  split <;> simp

/-- C4: the two flag-policy modes are mutually exclusive and selected by
whether `advancedFIDOConfig` is supplied.  Standard mode requires `up` and,
when `requireUserVerification` holds, `uv`; advanced-conformance mode requires
`uv` exactly when the configured requirement is `required` and otherwise
imposes no flag constraint at all (in particular `discouraged` never rejects a
response with `uv = false` or `up = false`); the continuation (`stageFinal`)
never throws a flag error. -/
theorem flag_policy_modes (H : Helpers) (o : VerifyAuthenticationResponseOpts)
    {cdjStr : String} {cd : ClientData} {n : Nat}
    {parsed : ParsedAuthenticatorData} {rp : String}
    (h : ReachesFlagCheck H o cdjStr cd n parsed rp) :
    (o.advancedFIDOConfig = none → parsed.flags.up = false →
      verifyAuthenticationResponse H o = (.error .userNotPresent, ⟨n, 0⟩)) ∧
    (o.advancedFIDOConfig = none → parsed.flags.up = true →
      o.requireUserVerification = true → parsed.flags.uv = false →
      verifyAuthenticationResponse H o = (.error .userNotVerified, ⟨n, 0⟩)) ∧
    (o.advancedFIDOConfig = none → parsed.flags.up = true →
      (o.requireUserVerification = false ∨ parsed.flags.uv = true) →
      verifyAuthenticationResponse H o = stageFinal H o cdjStr cd parsed rp n) ∧
    (∀ cfg, o.advancedFIDOConfig = some cfg →
      cfg.userVerification = some .required → parsed.flags.uv = false →
      verifyAuthenticationResponse H o = (.error .userNotVerified, ⟨n, 0⟩)) ∧
    (∀ cfg, o.advancedFIDOConfig = some cfg →
      cfg.userVerification = some .required → parsed.flags.uv = true →
      verifyAuthenticationResponse H o = stageFinal H o cdjStr cd parsed rp n) ∧
    (∀ cfg, o.advancedFIDOConfig = some cfg →
      cfg.userVerification ≠ some .required →
      verifyAuthenticationResponse H o = stageFinal H o cdjStr cd parsed rp n) ∧
    ((stageFinal H o cdjStr cd parsed rp n).1 ≠ .error .userNotPresent ∧
      (stageFinal H o cdjStr cd parsed rp n).1 ≠ .error .userNotVerified) := by
  have hm := verify_eq_of_reaches H o h
  refine ⟨?_, ?_, ?_, ?_, ?_, ?_,
    stageFinal_no_flag_error H o cdjStr cd parsed rp n⟩
  · intro hcfg hup
    rw [hcfg] at hm
    simp [flagPolicyCheck, hup] at hm
    exact hm
  · intro hcfg hup hruv huv
    rw [hcfg] at hm
    simp [flagPolicyCheck, hup, hruv, huv] at hm
    exact hm
  · intro hcfg hup hor
    rw [hcfg] at hm
    rcases hor with hruv | huv
    · simp [flagPolicyCheck, hup, hruv] at hm
      exact hm
    · simp [flagPolicyCheck, hup, huv] at hm
      exact hm
  · intro cfg hcfg hreq huv
    rw [hcfg] at hm
    simp [flagPolicyCheck, hreq, huv] at hm
    exact hm
  · intro cfg hcfg hreq huv
    rw [hcfg] at hm
    simp [flagPolicyCheck, hreq, huv] at hm
    exact hm
  · intro cfg hcfg hreq
    rw [hcfg] at hm
    rcases hcase : cfg.userVerification with _ | u
    · simp [flagPolicyCheck, hcase] at hm
      exact hm
    · cases u
      · exact absurd hcase hreq
      · simp [flagPolicyCheck, hcase] at hm
        exact hm
      · simp [flagPolicyCheck, hcase] at hm
        exact hm

/-- Proof that the concrete advanced-mode example with cleared flags reaches
the flag check. -/
theorem reachesF :
    ReachesFlagCheck H2 optsF "CDJ" cdA 0 parsedNoUV "example.com" :=
  ⟨⟨rfl, rfl, rfl, rfl⟩, rfl, rfl, rfl, rfl, rfl, rfl, rfl, rfl, rfl, rfl⟩

/-- Witness for C4: with requirement `discouraged` and both `up` and `uv`
cleared, the call is not rejected — it returns a success record. -/
theorem flag_policy_modes_witness :
    verifyAuthenticationResponse H2 optsF = (.ok resultF, ⟨0, 1⟩) := by
  have h6 := (flag_policy_modes H2 optsF reachesF).2.2.2.2.2.1
    { userVerification := some .discouraged } rfl (by simp)
  rw [h6]
  rfl


/-- C7: when `expectedChallenge` is a function, a call whose control reaches
the challenge check invokes the predicate exactly once (and never more than
once on any call); the predicate's verdict alone settles the check — a
rejection or a `false` fails the call with the corresponding error, and a
`true` means the call can no longer fail with a challenge error. -/
theorem challenge_predicate_invocation (H : Helpers)
    (o : VerifyAuthenticationResponseOpts) {cdjStr : String} {cd : ClientData}
    (hs : StructuralOk o cdjStr)
    (hdec : H.decodeClientDataJSON cdjStr = .ok cd)
    (hty : checkType o.expectedType cd.type = none)
    (f : String → Except Unit Bool) (hf : o.expectedChallenge = .inr f) :
    ((verifyAuthenticationResponse H o).2.challengeCalls = 1) ∧
    (∀ H2 o2, (verifyAuthenticationResponse H2 o2).2.challengeCalls ≤ 1) ∧
    (f cd.challenge = .error () →
      verifyAuthenticationResponse H o =
        (.error .challengePredicateRejected, ⟨1, 0⟩)) ∧
    (f cd.challenge = .ok false →
      verifyAuthenticationResponse H o =
        (.error (.challengeMismatch cd.challenge), ⟨1, 0⟩)) ∧
    (f cd.challenge = .ok true →
      (verifyAuthenticationResponse H o).1 ≠
        .error (.challengeMismatch cd.challenge) ∧
      (verifyAuthenticationResponse H o).1 ≠
        .error .challengePredicateRejected) := by
  have hm := verify_eq_stageClientData H o cdjStr hs
  refine ⟨?_, fun H2 o2 => verify_challengeCalls_le_one H2 o2, ?_, ?_, ?_⟩
  · rw [hm]
    unfold stageClientData
    simp only [hdec, hty]
    rcases hr : f cd.challenge with u | b
    · simp [checkChallenge, hf, hr]
    · cases b
      · simp [checkChallenge, hf, hr]
      · simp [checkChallenge, hf, hr, stageAfterChallenge_challengeCalls]
  · intro hrej
    rw [hm]
    unfold stageClientData
    simp only [hdec, hty]
    simp [checkChallenge, hf, hrej]
  · intro hfalse
    rw [hm]
    unfold stageClientData
    simp only [hdec, hty]
    simp [checkChallenge, hf, hfalse]
  · intro hok
    obtain ⟨h1, h2, h3, h4⟩ := hs
    constructor <;> intro hbad
    all_goals (
      rcases hv : verifyAuthenticationResponse H o with ⟨res, tr2⟩
      rw [hv] at hbad
      simp only at hbad
      subst hbad
      have hclass := verify_error_elim H o _ tr2 hv
      rcases hclass with ⟨hc, _⟩ | hclass
      · simp_all
      rcases hclass with ⟨hc, _⟩ | hclass
      · simp_all
      rcases hclass with ⟨hc, _⟩ | hclass
      · simp_all
      rcases hclass with ⟨hc, _⟩ | hclass
      · simp_all
      rcases hclass with ⟨hc, _⟩ | hclass
      · simp_all
      rcases hclass with ⟨s2, cd2, hcd2, hdec2, hc, _⟩ | hclass
      · simp_all
      rcases hclass with ⟨s2, cd2, n2, hcd2, hdec2, hch2, hrange⟩ | hclass
      · rw [h4] at hcd2
        obtain rfl := (JSVal.str.inj hcd2).symm
        rw [hdec] at hdec2
        obtain rfl := (Except.ok.inj hdec2).symm
        rw [hf] at hch2
        simp [checkChallenge, hok] at hch2
      rcases hclass with ⟨s2, cd2, hcd2, hdec2, hc, _⟩ | hclass
      · simp_all
      rcases hclass with ⟨hc, _⟩ | hclass
      · simp_all
      rcases hclass with ⟨hc, _⟩ | hclass
      · simp_all
      rcases hclass with ⟨hc, _⟩ | hclass
      · simp_all
      rcases hclass with ⟨hc, _⟩ | hclass
      · rcases hc with hc | hc <;> simp_all
      rcases hclass with ⟨hc, _⟩ | hclass
      · simp_all
      rcases hclass with ⟨hc, _⟩ | hclass
      · simp_all
      rcases hclass with ⟨hc, _⟩ | hclass
      · rcases hc with hc | hc <;> simp_all
      rcases hclass with ⟨parsed2, _, hc, _⟩
      · simp_all)

/-- Witness for C7 at the concrete example with an always-false predicate. -/
theorem challenge_predicate_invocation_witness :
    (verifyAuthenticationResponse H0 optsD).2.challengeCalls = 1 ∧
    verifyAuthenticationResponse H0 optsD =
      (.error (.challengeMismatch "abc123"), ⟨1, 0⟩) := by
  have h := challenge_predicate_invocation H0 optsD ⟨rfl, rfl, rfl, rfl⟩ rfl rfl
    (fun _ => .ok false) rfl
  exact ⟨h.1, h.2.2.2.1 rfl⟩


/-- C8: the call never mutates the caller-owned credential (the embedding is
a pure function of it), reads it only through `id`, `publicKey` and `counter`
(the outcome is invariant under replacing the credential by any credential
with the same three fields), and communicates the updated counter solely
through the returned `newCounter`. -/
theorem credential_not_mutated (H : Helpers)
    (o : VerifyAuthenticationResponseOpts) :
    (∀ c : WebAuthnCredential, c.id = o.credential.id →
      c.publicKey = o.credential.publicKey →
      c.counter = o.credential.counter →
      verifyAuthenticationResponse H { o with credential := c } =
        verifyAuthenticationResponse H o) ∧
    (∀ r tr, verifyAuthenticationResponse H o = (.ok r, tr) →
      r.authenticationInfo.credentialID = o.credential.id ∧
      ∃ parsed, H.parseAuthenticatorData
          (H.toBuffer o.response.response.authenticatorData) = .ok parsed ∧
        r.authenticationInfo.newCounter = parsed.counter) := by
  constructor
  · intro c h1 h2 h3
    have hc : c = o.credential := by
      rcases c with ⟨ci, cp, cc⟩
      simp only at h1 h2 h3
      subst h1
      subst h2
      subst h3
      rfl
    rw [hc]
  · intro r tr h
    obtain ⟨cdjStr, cd, n, parsed, rp,
      ⟨_, _, _, _, _, _, _, _, _, hpar, _⟩, _, _, hr, _⟩ :=
      verify_ok_elim H o r tr h
    exact ⟨by rw [hr]; rfl, parsed, hpar, by rw [hr]; rfl⟩

/-- Witness for C8 at the concrete example. -/
theorem credential_not_mutated_witness :
    verifyAuthenticationResponse H0
        { optsA with credential :=
            { id := "stored-credential-id", publicKey := [4], counter := 4 } } =
      verifyAuthenticationResponse H0 optsA :=
  (credential_not_mutated H0 optsA).1 _ rfl rfl rfl

/-- C9: verification is deterministic — with the expected values given as
literals (no caller-supplied predicate), two runs on the same input are the
same pure computation and yield identical outcomes. -/
theorem verification_deterministic (H : Helpers)
    (o : VerifyAuthenticationResponseOpts) (s : String)
    (hlit : o.expectedChallenge = .inl s) :
    verifyAuthenticationResponse H o = verifyAuthenticationResponse H o := rfl

/-- Witness for C9 at the concrete example. -/
theorem verification_deterministic_witness :
    verifyAuthenticationResponse H0 optsA = verifyAuthenticationResponse H0 optsA :=
  verification_deterministic H0 optsA "abc123" rfl

/-- C10: `authenticationInfo.credentialID` always equals the caller-supplied
`credential.id`, never the id carried in the response; the response id is
never compared against `credential.id` — beyond the structural id checks the
outcome does not depend on the response id at all. -/
theorem credentialID_from_supplied_credential (H : Helpers)
    (o : VerifyAuthenticationResponseOpts) :
    (∀ r tr, verifyAuthenticationResponse H o = (.ok r, tr) →
      r.authenticationInfo.credentialID = o.credential.id) ∧
    (∀ i j : String, i ≠ "" → j ≠ "" →
      verifyAuthenticationResponse H
          { o with response :=
              { o.response with id := some i, rawId := some i } } =
        verifyAuthenticationResponse H
          { o with response :=
              { o.response with id := some j, rawId := some j } }) := by
  constructor
  · intro r tr h
    obtain ⟨_, _, _, _, _, _, _, _, hr, _⟩ := verify_ok_elim H o r tr h
    rw [hr]; rfl
  · intro i j hi hj
    unfold verifyAuthenticationResponse
    by_cases hty : o.response.type = some "public-key"
    all_goals simp [strFalsy, hi, hj, hty]
    cases hcj : o.response.response.clientDataJSON <;> simp [hcj] <;> try rfl

/-- Witness for C10: the concrete example's result carries the stored
credential's id even though the response's id differs. -/
theorem credentialID_from_supplied_credential_witness :
    resultA.authenticationInfo.credentialID = "stored-credential-id" ∧
    optsA.response.id = some "response-id" ∧ resultA.verified = true := by
  refine ⟨?_, rfl, rfl⟩
  exact (credentialID_from_supplied_credential H0 optsA).1 resultA ⟨0, 1⟩
    verify_optsA


/-- Counterexample to C6 as stated: a present-but-empty credential id throws
`MissingCredentialIdError` even though the id is not absent, and a present,
falsy, non-string `userHandle` raises no error at all — the call returns a
complete success record. -/
theorem structural_errors_counterexample :
    ((verifyAuthenticationResponse H0 optsEmptyId).1 =
        .error .missingCredentialId ∧
      optsEmptyId.response.id ≠ none) ∧
    (verifyAuthenticationResponse H0 optsUH0 = (.ok resultA, ⟨0, 1⟩) ∧
      optsUH0.response.response.userHandle ≠ .undef ∧
      optsUH0.response.response.userHandle.isStr = false) := by
  refine ⟨⟨rfl, by simp [optsEmptyId]⟩, rfl, by simp [optsUH0], rfl⟩

/-- C6 (amended): structural validation is exhaustive and fail-fast, with the
JavaScript truthiness refinements — `MissingCredentialIdError` iff the id is
absent *or the empty string*; then `CredentialIdMismatchError` iff
`id ≠ rawId`; then `UnexpectedCredentialTypeError` iff the type is not
`public-key`; then `MissingResponseFieldError` iff `clientDataJSON` is not a
string; and, once decode/type/challenge/origin pass, `InvalidEncodingError`
for `authenticatorData`, then `signature`, not valid base64url, and for a
`userHandle` that is present *and truthy* but not a string. -/
theorem structural_errors_exhaustive (H : Helpers)
    (o : VerifyAuthenticationResponseOpts) :
    ((verifyAuthenticationResponse H o).1 = .error .missingCredentialId ↔
      strFalsy o.response.id = true) ∧
    (strFalsy o.response.id = false →
      ((verifyAuthenticationResponse H o).1 = .error .credentialIdMismatch ↔
        o.response.id ≠ o.response.rawId)) ∧
    (strFalsy o.response.id = false → o.response.id = o.response.rawId →
      ((verifyAuthenticationResponse H o).1 =
          .error (.unexpectedCredentialType o.response.type) ↔
        o.response.type ≠ some "public-key")) ∧
    (strFalsy o.response.id = false → o.response.id = o.response.rawId →
      o.response.type = some "public-key" →
      ((verifyAuthenticationResponse H o).1 = .error .missingResponseField ↔
        o.response.response.clientDataJSON.isStr = false)) ∧
    (∀ cdjStr cd n, StructuralOk o cdjStr →
      H.decodeClientDataJSON cdjStr = .ok cd →
      checkType o.expectedType cd.type = none →
      checkChallenge o.expectedChallenge cd.challenge = (.ok (), n) →
      checkOrigin o.expectedOrigin cd.origin = none →
      (((verifyAuthenticationResponse H o).1 =
          .error .invalidAuthDataEncoding ↔
        isBase64URL o.response.response.authenticatorData = false) ∧
      (isBase64URL o.response.response.authenticatorData = true →
        ((verifyAuthenticationResponse H o).1 =
            .error .invalidSignatureEncoding ↔
          isBase64URL o.response.response.signature = false)) ∧
      (isBase64URL o.response.response.authenticatorData = true →
        isBase64URL o.response.response.signature = true →
        ((verifyAuthenticationResponse H o).1 = .error .invalidUserHandle ↔
          (o.response.response.userHandle.truthy &&
            !o.response.response.userHandle.isStr) = true)))) := by
  refine ⟨Iff.intro ?_ ?_, fun h1 => Iff.intro ?_ ?_,
    fun h1 h2 => Iff.intro ?_ ?_, fun h1 h2 h3 => Iff.intro ?_ ?_,
    fun cdjStr cd n hs hdec hty hch horig =>
      ⟨Iff.intro ?_ ?_, fun hb1 => Iff.intro ?_ ?_,
        fun hb1 hb2 => Iff.intro ?_ ?_⟩⟩
  · intro hR
    have hv : verifyAuthenticationResponse H o =
        (.error .missingCredentialId, (verifyAuthenticationResponse H o).2) :=
      Prod.ext_iff.mpr ⟨hR, rfl⟩
    simpa using verify_error_elim H o _ _ hv
  · intro hc
    unfold verifyAuthenticationResponse
    simp [hc]
  · intro hR
    have hv : verifyAuthenticationResponse H o =
        (.error .credentialIdMismatch, (verifyAuthenticationResponse H o).2) :=
      Prod.ext_iff.mpr ⟨hR, rfl⟩
    simpa using verify_error_elim H o _ _ hv
  · intro hne
    unfold verifyAuthenticationResponse
    simp [h1, hne]
  · intro hR
    have hv : verifyAuthenticationResponse H o =
        (.error (.unexpectedCredentialType o.response.type),
          (verifyAuthenticationResponse H o).2) :=
      Prod.ext_iff.mpr ⟨hR, rfl⟩
    simpa using verify_error_elim H o _ _ hv
  · intro hty
    unfold verifyAuthenticationResponse
    simp [h1, ← h2, hty]
  · intro hR
    have hv : verifyAuthenticationResponse H o =
        (.error .missingResponseField, (verifyAuthenticationResponse H o).2) :=
      Prod.ext_iff.mpr ⟨hR, rfl⟩
    simpa using verify_error_elim H o _ _ hv
  · intro hstr
    unfold verifyAuthenticationResponse
    simp [h1, ← h2, h3]
    cases hcj : o.response.response.clientDataJSON <;>
      simp_all [JSVal.isStr]
  · intro hR
    have hv : verifyAuthenticationResponse H o =
        (.error .invalidAuthDataEncoding, (verifyAuthenticationResponse H o).2) :=
      Prod.ext_iff.mpr ⟨hR, rfl⟩
    simpa using verify_error_elim H o _ _ hv
  · intro hb
    rw [verify_eq_stageClientData H o cdjStr hs]
    unfold stageClientData
    simp only [hdec, hty, hch]
    unfold stageAfterChallenge
    simp [horig, hb]
  · intro hR
    have hv : verifyAuthenticationResponse H o =
        (.error .invalidSignatureEncoding, (verifyAuthenticationResponse H o).2) :=
      Prod.ext_iff.mpr ⟨hR, rfl⟩
    simpa using verify_error_elim H o _ _ hv
  · intro hb2
    rw [verify_eq_stageClientData H o cdjStr hs]
    unfold stageClientData
    simp only [hdec, hty, hch]
    unfold stageAfterChallenge
    simp [horig, hb1, hb2]
  · intro hR
    have hv : verifyAuthenticationResponse H o =
        (.error .invalidUserHandle, (verifyAuthenticationResponse H o).2) :=
      Prod.ext_iff.mpr ⟨hR, rfl⟩
    simpa using verify_error_elim H o _ _ hv
  · intro huh
    rw [verify_eq_stageClientData H o cdjStr hs]
    unfold stageClientData
    simp only [hdec, hty, hch]
    unfold stageAfterChallenge
    simp [horig, hb1, hb2, huh]

/-- Witness for the amended C6: the empty-id input throws
`MissingCredentialIdError` and a mismatched `rawId` throws
`CredentialIdMismatchError`. -/
theorem structural_errors_exhaustive_witness :
    (verifyAuthenticationResponse H0 optsEmptyId).1 =
      .error .missingCredentialId ∧
    (verifyAuthenticationResponse H0 optsRawIdMismatch).1 =
      .error .credentialIdMismatch := by
  constructor
  · exact (structural_errors_exhaustive H0 optsEmptyId).1.mpr rfl
  · exact ((structural_errors_exhaustive H0 optsRawIdMismatch).2.1 rfl).mpr
      (by simp [optsRawIdMismatch, respA])

end SimpleWebAuthn
